import Mathlib

/-!
Shallow embedding of `src/main.go` (package main): a workout-statistics
calculator with three training variants (Running, Walking, Swimming).

Modelling choices:
* Go `float64` values are embedded as exact rationals `ℚ`; every formula in
  the source is plain field arithmetic, so the rational computation is the
  ideal-arithmetic reading of the code.
* `time.Duration` is only ever consumed through `.Hours()`, so the
  `Duration` field is embedded directly as the number of hours (a rational).
* Go struct embedding (`Running` embeds `Training`) is modelled by an
  explicit `training` field; promoted methods are written out as calls on
  that field, which matches Go method-set semantics (no virtual dispatch:
  `Training.TrainingInfo` calls `Training.Calories`, never an override).
* The `CaloriesCalculator` interface with its closed set of implementors is
  modelled as a sum type with dispatch functions.
* `ReadData` returns the assembled `InfoMessage` (the formatted-string step
  `fmt.Sprint` only renders those fields and is not needed by any claim).
-/

/-- Meters in one kilometer (const `MInKm` in main.go). -/
def MInKm : ℚ := 1000

/-- Minutes in one hour (const `MinInHours` in main.go). -/
def MinInHours : ℚ := 60

/-- Length of one step (const `LenStep` in main.go). -/
def LenStep : ℚ := 0.65

/-- Centimeters in one meter (const `CmInM` in main.go). -/
def CmInM : ℚ := 100

/-- `Training`: common record for all workouts (main.go lines 18-24). -/
structure Training where
  TrainingType : String
  Action : Int
  LenStep : ℚ
  Duration : ℚ
  Weight : ℚ

/-- `Training.distance` (main.go lines 27-29): kilometers covered. -/
def Training.distance (t : Training) : ℚ :=
  (t.Action : ℚ) * t.LenStep / MInKm

/-- `Training.meanSpeed` (main.go lines 32-38): mean speed in km/h, with the
zero-duration guard. -/
def Training.meanSpeed (t : Training) : ℚ :=
  if t.Duration = 0 then 0
  else t.distance / t.Duration

/-- `Training.Calories` (main.go lines 42-44): base default, always 0. -/
def Training.Calories (_t : Training) : ℚ :=
  0

/-- `InfoMessage` (main.go lines 47-53): the report record. -/
structure InfoMessage where
  TrainingType : String
  Duration : ℚ
  Distance : ℚ
  Speed : ℚ
  Calories : ℚ

/-- `Training.TrainingInfo` (main.go lines 56-64): assembles the base report.
The `Calories` field comes from the base `Training.Calories` (Go value-method
dispatch, no override is consulted here). -/
def Training.TrainingInfo (t : Training) : InfoMessage :=
  { TrainingType := t.TrainingType
    Duration := t.Duration
    Distance := t.distance
    Speed := t.meanSpeed
    Calories := t.Calories }

/-- Multiplier of the running mean speed (main.go line 85). -/
def CaloriesMeanSpeedMultiplier : ℚ := 18

/-- Shift of the running mean speed (main.go line 86). -/
def CaloriesMeanSpeedShift : ℚ := 1.79

/-- `Running` (main.go lines 90-92): embeds `Training`, no extra fields. -/
structure Running where
  training : Training

/-- `Running.Calories` (main.go lines 96-100). -/
def Running.Calories (r : Running) : ℚ :=
  let speed := r.training.meanSpeed
  let duration := r.training.Duration
  (CaloriesMeanSpeedMultiplier * speed + CaloriesMeanSpeedShift) * r.training.Weight / MInKm * duration * MinInHours

/-- `Running.TrainingInfo` (main.go lines 104-106): delegates to the base. -/
def Running.TrainingInfo (r : Running) : InfoMessage :=
  r.training.TrainingInfo

/-- Weight multiplier for walking (main.go line 110). -/
def CaloriesWeightMultiplier : ℚ := 0.035

/-- Speed/height multiplier for walking (main.go line 111). -/
def CaloriesSpeedHeightMultiplier : ℚ := 0.029

/-- km/h to m/s conversion factor (main.go line 112). -/
def KmHInMsec : ℚ := 0.278

/-- `Walking` (main.go lines 116-119): embeds `Training` plus `Height` (cm). -/
structure Walking where
  training : Training
  Height : ℚ

/-- `Walking.Calories` (main.go lines 123-128); `math.Pow(x, 2)` is `x ^ 2`. -/
def Walking.Calories (w : Walking) : ℚ :=
  let speedMinSec := w.training.meanSpeed * KmHInMsec
  let duration := w.training.Duration
  let height := w.Height / CmInM
  (CaloriesWeightMultiplier * w.training.Weight + (speedMinSec ^ 2 / height) * CaloriesSpeedHeightMultiplier * w.training.Weight) * duration * MinInHours

/-- `Walking.TrainingInfo` (main.go lines 132-134): delegates to the base. -/
def Walking.TrainingInfo (w : Walking) : InfoMessage :=
  w.training.TrainingInfo

/-- Length of one swim stroke (main.go line 138). -/
def SwimmingLenStep : ℚ := 1.38

/-- Mean-speed shift for swimming (main.go line 139). -/
def SwimmingCaloriesMeanSpeedShift : ℚ := 1.1

/-- Weight multiplier for swimming (main.go line 140). -/
def SwimmingCaloriesWeightMultiplier : ℚ := 2

/-- `Swimming` (main.go lines 144-148): embeds `Training` plus pool data. -/
structure Swimming where
  training : Training
  LengthPool : Int
  CountPool : Int

/-- `Swimming.meanSpeed` (main.go lines 152-159): traversal-based override
with the zero-duration guard. -/
def Swimming.meanSpeed (s : Swimming) : ℚ :=
  let duration := s.training.Duration
  if duration = 0 then 0
  else ((s.LengthPool * s.CountPool : Int) : ℚ) / MInKm / duration

/-- `Swimming.Calories` (main.go lines 163-168): uses the overridden
`Swimming.meanSpeed`. -/
def Swimming.Calories (s : Swimming) : ℚ :=
  let speed := s.meanSpeed
  let duration := s.training.Duration
  (speed + SwimmingCaloriesMeanSpeedShift) * SwimmingCaloriesWeightMultiplier * s.training.Weight * duration

/-- `Swimming.TrainingInfo` (main.go lines 172-177): base report with only
the `Speed` field overwritten by the swimming override. -/
def Swimming.TrainingInfo (s : Swimming) : InfoMessage :=
  let trainingInfo := s.training.TrainingInfo
  { trainingInfo with Speed := s.meanSpeed }

/-- `CaloriesCalculator` (main.go lines 78-81): the interface over the closed
set of variants, as a sum type. -/
inductive CaloriesCalculator where
  | running : Running → CaloriesCalculator
  | walking : Walking → CaloriesCalculator
  | swimming : Swimming → CaloriesCalculator

/-- Dynamic dispatch of the interface method `Calories()`. -/
def CaloriesCalculator.Calories : CaloriesCalculator → ℚ
  | .running r => r.Calories
  | .walking w => w.Calories
  | .swimming s => s.Calories

/-- Dynamic dispatch of the interface method `TrainingInfo()`. -/
def CaloriesCalculator.TrainingInfo : CaloriesCalculator → InfoMessage
  | .running r => r.TrainingInfo
  | .walking w => w.TrainingInfo
  | .swimming s => s.TrainingInfo

/-- `ReadData` (main.go lines 180-190): compute the variant calories, take
the variant report, overwrite its `Calories` field. -/
def ReadData (training : CaloriesCalculator) : InfoMessage :=
  let calories := training.Calories
  let info := training.TrainingInfo
  { info with Calories := calories }

/-- The hardcoded swimming example from `main` (main.go lines 194-204):
2000 strokes, 90 min = 3/2 h, weight 85, pool 50 m, 5 crossings. -/
def swimmingExample : Swimming :=
  { training :=
      { TrainingType := "Плавание"
        Action := 2000
        LenStep := SwimmingLenStep
        Duration := 3 / 2
        Weight := 85 }
    LengthPool := 50
    CountPool := 5 }

/-- The hardcoded walking example from `main` (main.go lines 208-217):
20000 steps, 3 h 45 min = 15/4 h, weight 85, height 185 cm. -/
def walkingExample : Walking :=
  { training :=
      { TrainingType := "Ходьба"
        Action := 20000
        LenStep := LenStep
        Duration := 15 / 4
        Weight := 85 }
    Height := 185 }

/-- The hardcoded running example from `main` (main.go lines 221-229):
5000 steps, 30 min = 1/2 h, weight 85. -/
def runningExample : Running :=
  { training :=
      { TrainingType := "Бег"
        Action := 5000
        LenStep := LenStep
        Duration := 1 / 2
        Weight := 85 } }

/-- A zero-duration training record, used to exercise the division guard. -/
def zeroDurationTraining : Training :=
  { TrainingType := "Бег"
    Action := 100
    LenStep := LenStep
    Duration := 0
    Weight := 70 }

/-- A zero-duration swimming record, used to exercise the division guard. -/
def zeroDurationSwimming : Swimming :=
  { training :=
      { TrainingType := "Плавание"
        Action := 100
        LenStep := SwimmingLenStep
        Duration := 0
        Weight := 70 }
    LengthPool := 25
    CountPool := 4 }

/-- Claim C1: for every variant, `ReadData` produces a final report whose
`Calories` field equals exactly that variant's own (overridden) `Calories()`
result, and whose every other field (kind, duration, distance, speed) equals
the corresponding field of that variant's own `TrainingInfo()` result. -/
theorem ReadData_assembles_variant_report (c : CaloriesCalculator) :
    (ReadData c).Calories = c.Calories ∧
    (ReadData c).TrainingType = c.TrainingInfo.TrainingType ∧
    (ReadData c).Duration = c.TrainingInfo.Duration ∧
    (ReadData c).Distance = c.TrainingInfo.Distance ∧
    (ReadData c).Speed = c.TrainingInfo.Speed :=
  ⟨rfl, rfl, rfl, rfl, rfl⟩

/-- Claim C2: for every swimming session, the overridden `TrainingInfo()`
equals the base report with only the speed field replaced: its distance is
the stroke-based `actionCount * stepLength / 1000` independent of the pool
fields, its speed is the swimming `meanSpeed()`, and kind, duration and
calories are unchanged from the base report. -/
theorem Swimming_TrainingInfo_frame (s : Swimming) (lp cp : Int) :
    s.TrainingInfo.Distance = (s.training.Action : ℚ) * s.training.LenStep / 1000 ∧
    s.TrainingInfo.Distance = ({ s with LengthPool := lp, CountPool := cp } : Swimming).TrainingInfo.Distance ∧
    s.TrainingInfo.Speed = s.meanSpeed ∧
    s.TrainingInfo.TrainingType = s.training.TrainingInfo.TrainingType ∧
    s.TrainingInfo.Duration = s.training.TrainingInfo.Duration ∧
    s.TrainingInfo.Calories = s.training.TrainingInfo.Calories :=
  ⟨rfl, rfl, rfl, rfl, rfl, rfl⟩

/-- Claim C3: for every swimming session, the overridden `meanSpeed()`
returns `poolLengthM * poolCrossings / 1000 / durationHours` when the
duration is nonzero, and 0 when the duration is zero. -/
theorem Swimming_meanSpeed_spec (s : Swimming) :
    (s.training.Duration ≠ 0 →
      s.meanSpeed = (s.LengthPool : ℚ) * (s.CountPool : ℚ) / 1000 / s.training.Duration) ∧
    (s.training.Duration = 0 → s.meanSpeed = 0) := by
  constructor
  · intro h
    simp [Swimming.meanSpeed, MInKm, h]
  · intro h
    simp [Swimming.meanSpeed, h]

/-- Witness for C3: the hardcoded swimming example has nonzero duration, and
its overridden mean speed equals the traversal formula there (concretely,
`50 * 5 / 1000 / (3/2) = 1/6` km/h). -/
theorem Swimming_meanSpeed_spec_witness :
    swimmingExample.training.Duration ≠ 0 ∧
    swimmingExample.meanSpeed =
      (swimmingExample.LengthPool : ℚ) * (swimmingExample.CountPool : ℚ) / 1000 / swimmingExample.training.Duration ∧
    swimmingExample.meanSpeed = 1 / 6 :=
  ⟨by norm_num [swimmingExample],
   (Swimming_meanSpeed_spec swimmingExample).1 (by norm_num [swimmingExample]),
   by norm_num [Swimming.meanSpeed, swimmingExample, MInKm]⟩

/-- Claim C4: for every running session, `Calories()` returns
`(18 * meanSpeed() + 1.79) * weightKg / 1000 * durationHours * 60` with the
base mean speed; and at the hardcoded example (5000 steps, step 0.65 m,
0.5 h, 85 kg) it equals `(18*6.5+1.79)*85/1000*0.5*60`. -/
theorem Running_Calories_spec (r : Running) :
    r.Calories = (18 * r.training.meanSpeed + 1.79) * r.training.Weight / 1000 * r.training.Duration * 60 ∧
    runningExample.Calories = (18 * 6.5 + 1.79) * 85 / 1000 * 0.5 * 60 :=
  ⟨rfl,
   by norm_num [Running.Calories, Training.meanSpeed, Training.distance, runningExample,
     CaloriesMeanSpeedMultiplier, CaloriesMeanSpeedShift, MInKm, MinInHours, LenStep]⟩

/-- Claim C5: for every walking session, `Calories()` returns
`(0.035 * weightKg + (speedMs^2 / heightM) * 0.029 * weightKg) * durationHours * 60`
where `speedMs = meanSpeed() * 0.278` and `heightM = heightCm / 100`. -/
theorem Walking_Calories_spec (w : Walking) :
    w.Calories =
      (0.035 * w.training.Weight +
        ((w.training.meanSpeed * 0.278) ^ 2 / (w.Height / 100)) * 0.029 * w.training.Weight) *
        w.training.Duration * 60 :=
  rfl

/-- Counterexample for C6: at the hardcoded swimming input (pool 50 m,
5 crossings, 1.5 h, 85 kg) the calories are exactly 323 kcal, which is not
approximately 326.25 kcal (the difference exceeds 3 kcal). -/
theorem Swimming_Calories_scenario_counterexample :
    swimmingExample.Calories = 323 ∧ 3 < |swimmingExample.Calories - (326.25 : ℚ)| := by
  have h : swimmingExample.Calories = 323 := by
    norm_num [Swimming.Calories, Swimming.meanSpeed, swimmingExample,
      SwimmingCaloriesMeanSpeedShift, SwimmingCaloriesWeightMultiplier, MInKm]
  refine ⟨h, ?_⟩
  rw [h, abs_sub_comm, abs_of_nonneg (by norm_num)]
  norm_num

/-- Claim C6 (amended): for every swimming session, `Calories()` returns
`(meanSpeed() + 1.1) * 2 * weightKg * durationHours` with the swimming
override of the mean speed; at the hardcoded example (pool 50 m, 5 crossings,
1.5 h, 85 kg) it returns exactly 323 kcal. -/
theorem Swimming_Calories_amended_spec (s : Swimming) :
    s.Calories = (s.meanSpeed + 1.1) * 2 * s.training.Weight * s.training.Duration ∧
    swimmingExample.Calories = 323 :=
  ⟨rfl,
   by norm_num [Swimming.Calories, Swimming.meanSpeed, swimmingExample,
     SwimmingCaloriesMeanSpeedShift, SwimmingCaloriesWeightMultiplier, MInKm]⟩

/-- Claim C7: with zero duration both the base `meanSpeed()` and the
swimming override return 0 (no division by zero, no error); with nonzero
duration the base `meanSpeed()` returns `distance() / durationHours`. -/
theorem meanSpeed_zero_guard_spec (t : Training) (s : Swimming) :
    (t.Duration = 0 → t.meanSpeed = 0) ∧
    (s.training.Duration = 0 → s.meanSpeed = 0) ∧
    (t.Duration ≠ 0 → t.meanSpeed = t.distance / t.Duration) := by
  refine ⟨fun h => ?_, fun h => ?_, fun h => ?_⟩
  · simp [Training.meanSpeed, h]
  · simp [Swimming.meanSpeed, h]
  · simp [Training.meanSpeed, h]

/-- Witness for C7: concrete zero-duration records, on which both mean
speeds are 0, and the hardcoded running example with nonzero duration, on
which the base mean speed is distance over duration. -/
theorem meanSpeed_zero_guard_spec_witness :
    (zeroDurationTraining.Duration = 0 ∧ zeroDurationTraining.meanSpeed = 0) ∧
    (zeroDurationSwimming.training.Duration = 0 ∧ zeroDurationSwimming.meanSpeed = 0) ∧
    (runningExample.training.Duration ≠ 0 ∧
      runningExample.training.meanSpeed = runningExample.training.distance / runningExample.training.Duration) :=
  ⟨⟨rfl, (meanSpeed_zero_guard_spec zeroDurationTraining zeroDurationSwimming).1 rfl⟩,
   ⟨rfl, (meanSpeed_zero_guard_spec zeroDurationTraining zeroDurationSwimming).2.1 rfl⟩,
   ⟨by norm_num [runningExample],
    (meanSpeed_zero_guard_spec runningExample.training zeroDurationSwimming).2.2
      (by norm_num [runningExample])⟩⟩

/-- Claim C8: for every session, `distance()` returns
`actionCount * stepLength / 1000` kilometers; the function is total (it is a
plain arithmetic definition with no failure mode). -/
theorem Training_distance_spec (t : Training) :
    t.distance = (t.Action : ℚ) * t.LenStep / 1000 :=
  rfl

/-- Claim C9: `distance()` is linear in the action count: for every running
or walking session, doubling `actionCount` while holding step length,
duration and weight constant doubles `distance()`. -/
theorem distance_linear_in_action (r : Running) (w : Walking) :
    ({ r.training with Action := 2 * r.training.Action } : Training).distance = 2 * r.training.distance ∧
    ({ w.training with Action := 2 * w.training.Action } : Training).distance = 2 * w.training.distance := by
  constructor <;>
  · simp [Training.distance]
    ring

/-- Claim C10: for every variant, the `Calories` field of the report
returned by `TrainingInfo()` is 0 (the base default): report assembly always
invokes the base `Training.Calories`, and the overridden calorie value
appears in the final output only because `ReadData` overwrites the field
afterwards with the variant's own `Calories()`. -/
theorem TrainingInfo_Calories_base_default (c : CaloriesCalculator) :
    c.TrainingInfo.Calories = 0 ∧ (ReadData c).Calories = c.Calories := by
  cases c <;> exact ⟨rfl, rfl⟩
